import Mathlib

/-!
Shallow embedding of the runner-supervision core of the gauge repository
(`src/runner/runner.go`), together with theorems checking the
natural-language specification against it.

Go values that can be `nil` are modelled with `Option`; Go errors are
modelled as `Option String` / `Except String`; external collaborator calls
(file reads, socket binds, process spawns, connection accepts, the version
compatibility check) are modelled as oracle inputs recording their
outcomes, since their implementations live outside this repository.
Side effects (messages sent, processes killed, log lines) are modelled as
event traces returned alongside the function result.
-/

namespace Gauge

/-- Go errors are carried as their message strings. -/
abbrev GoError := String

/-- From `version.VersionSupport` (external package, shape given by the spec):
an inclusive version-support range. Opaque here; only its presence matters. -/
structure VersionSupport where
  Minimum : String
  Maximum : String
deriving Repr, DecidableEq

/-- The per-platform command lists of the anonymous `Run` / `Init` structs in
`type Runner` (runner.go lines 53-62). -/
structure Commands where
  Windows : List String
  Linux : List String
  Darwin : List String
deriving Repr, DecidableEq

/-- From `type Runner` (runner.go lines 48-65): the parsed runner descriptor. -/
structure Runner where
  Id : String
  Name : String
  Version : String
  Description : String
  Run : Commands
  Init : Commands
  Lib : String
  GaugeVersionSupport : VersionSupport
deriving Repr, DecidableEq

/-- From `os.Process` as used in runner.go: only the `Pid` field is read
(line 141). -/
structure GoProcess where
  Pid : Int
deriving Repr, DecidableEq

/-- From `os.ProcessState` as used in runner.go: only `Exited()` is called
(line 153). -/
structure ProcState where
  Exited : Bool
deriving Repr, DecidableEq

/-- From `exec.Cmd` as used in runner.go: the process handle and the process
state, which is `nil` until the process has been reaped.  Every `Cmd` held by
a `TestRunner` in this code was produced by a successful
`common.ExecuteCommandWithEnv`, so `Process` is always non-nil and is
modelled as a plain field. -/
structure GoCmd where
  Process : GoProcess
  ProcessState : Option ProcState
deriving Repr, DecidableEq

/-- From `type TestRunner` (runner.go lines 42-46).  The connection is
modelled by its presence, and the error channel by its buffer capacity
(recorded at `make` time) — the dynamic sends on it are modelled separately
by `waitAndGetErrorMessageSends`. -/
structure TestRunner where
  Cmd : Option GoCmd
  Connection : Option Unit
  ErrorChannelCap : Nat
deriving Repr, DecidableEq

/-- The value of `common.GaugeInternalPortEnvName` (external constant; value
given by the spec §8). -/
def GaugeInternalPortEnvName : String := "GAUGE_INTERNAL_PORT"

/-- The characters before the first occurrence of `sep`: the Go stdlib
`strings.Split(k, sep)[0]` for a one-character separator, modelled at the
character level so that it computes by structural recursion. -/
def splitBeforeChar (sep : Char) : List Char → List Char
  | [] => []
  | c :: rest => if c == sep then [] else c :: splitBeforeChar sep rest

/-- The Go stdlib `strings.TrimSpace`, modelled at the character level:
drops whitespace from both ends. -/
def trimChars (l : List Char) : List Char :=
  ((l.dropWhile Char.isWhitespace).reverse.dropWhile Char.isWhitespace).reverse

/-- The variable name extracted from one environment entry, exactly as
runner.go line 224 computes it: `strings.TrimSpace(strings.Split(k, "=")[0])`. -/
def envKey (entry : String) : String :=
  ⟨trimChars (splitBeforeChar '=' entry.data)⟩

/-- From `getCleanEnv` (runner.go lines 220-233): every entry whose key is
`GAUGE_INTERNAL_PORT` is overwritten in place with the new port; one entry is
appended only when no entry had that key. -/
def getCleanEnv (port : String) (env : List String) : List String :=
  let isPresent := env.any (fun k => envKey k == GaugeInternalPortEnvName)
  let rewritten := env.map (fun k =>
    if envKey k == GaugeInternalPortEnvName then
      GaugeInternalPortEnvName ++ "=" ++ port
    else k)
  if isPresent then rewritten
  else rewritten ++ [GaugeInternalPortEnvName ++ "=" ++ port]

/-- From `getOsSpecificCommand` (runner.go lines 235-249): the `switch
runtime.GOOS` selecting the run command list, with linux as the `default`
arm.  `runtime.GOOS` is a build-time constant, passed here as `goos`. -/
def getOsSpecificCommand (goos : String) (r : Runner) : List String :=
  if goos == "windows" then r.Run.Windows
  else if goos == "darwin" then r.Run.Darwin
  else r.Run.Linux

/-- From the `switch runtime.GOOS` inside `ExecuteInitHookForRunner`
(runner.go lines 76-86): selects the init command list, linux being the
`default` arm. -/
def executeInitHookCommand (goos : String) (r : Runner) : List String :=
  if goos == "windows" then r.Init.Windows
  else if goos == "darwin" then r.Init.Darwin
  else r.Init.Linux

/-- From `isStillRunning` (runner.go lines 152-154):
`!(testRunner == nil) && !(testRunner.Cmd == nil) &&
(testRunner.Cmd.ProcessState == nil || !testRunner.Cmd.ProcessState.Exited())`.
The receiver is `Option TestRunner` because Go allows calling this method on
a nil pointer. -/
def isStillRunning (testRunner : Option TestRunner) : Bool :=
  match testRunner with
  | none => false
  | some t =>
    match t.Cmd with
    | none => false
    | some c =>
      match c.ProcessState with
      | none => true
      | some ps => !ps.Exited

/-- Observable side effects of `Kill` (runner.go lines 118-146), in the order
they happen: the stop-request message written by `sendProcessKillMessage`,
the `logger.Warning` naming the pid, the `Cmd.Process.Kill()` syscall from
`killRunner`, and the deferred `Connection.Close()`. -/
inductive KillEvent
  | sendKillMessage
  | warnForcedKill (pid : Int)
  | osKill
  | closeConnection
deriving Repr, DecidableEq

/-- The winner of the race inside `Kill` (runner.go lines 135-143) between
the 100 ms liveness poller and the `config.PluginKillTimeout()` timer. -/
inductive KillRace
  | exitedWithinGrace
  | graceTimeout
deriving Repr, DecidableEq

/-- The pid read in the `Kill` timer branch (runner.go line 141),
`testRunner.Cmd.Process.Pid`.  Reaching that line requires `isStillRunning`,
so the `none` arms are unreachable there (in Go they would be nil panics). -/
def killLoggedPid (testRunner : Option TestRunner) : Int :=
  match testRunner with
  | some t =>
    match t.Cmd with
    | some c => c.Process.Pid
    | none => 0
  | none => 0

/-- From `Kill` (runner.go lines 118-146).  `race` records which of the
poller and the grace-period timer won the `select`; `osKillErr` records the
outcome of `Cmd.Process.Kill()` in `killRunner`, consulted only in the timer
branch.  Returns the event trace and the Go return value. -/
def Kill (testRunner : Option TestRunner) (race : KillRace)
    (osKillErr : Option GoError) : List KillEvent × Option GoError :=
  if isStillRunning testRunner then
    match race with
    | .exitedWithinGrace =>
        ([.sendKillMessage, .closeConnection], none)
    | .graceTimeout =>
        ([.sendKillMessage, .warnForcedKill (killLoggedPid testRunner),
          .osKill, .closeConnection], osKillErr)
  else ([], none)

/-- From `waitAndGetErrorMessage` (runner.go lines 210-218): the list of
values the exit watcher sends on the error channel, as a function of the
`cmd.Wait()` outcome — one formatted value when `Wait` returned a non-nil
error, none otherwise. -/
def waitAndGetErrorMessageSends (waitErr : Option GoError) : List GoError :=
  match waitErr with
  | some e => ["Runner exited with error: " ++ e ++ "\n"]
  | none => []

/-- The capacity of the channel created by `make(chan error)` at
runner.go line 189: a Go `make(chan T)` with no size argument is unbuffered. -/
def startRunnerErrChannelCap : Nat := 0

/-- Observable steps of the start sequence (`StartRunnerAndMakeConnection`
plus `startRunner`, runner.go lines 166-192 and 260-285), in program order:
binding the listening socket (`conn.NewGaugeConnectionHandler`), loading and
parsing the descriptor (`getLanguageJSONFilePath`), the compatibility check
(`version.CheckCompatibility`), spawning the runner process
(`common.ExecuteCommandWithEnv`, recorded with its command, working
directory and environment, and only when the spawn succeeded), accepting
the handshake connection, and the cleanup `killRunner`. -/
inductive StartEvent
  | bindListener
  | loadDescriptor
  | checkCompatibility
  | spawnProcess (command : List String) (dir : String) (env : List String)
  | acceptConnection
  | killRunnerProc
deriving Repr, DecidableEq

deriving instance DecidableEq for Except

/-- Outcomes of the external collaborator calls made during one start
attempt.  Each field records what the corresponding call would return; the
model consumes them in program order. -/
structure StartOracle where
  /-- `conn.GetPortFromEnvironmentVariable(common.GaugePortEnvName)`:
  the parsed port, or an error (on which the code uses port 0). -/
  envPort : Except GoError Nat
  /-- `conn.NewGaugeConnectionHandler(port, nil)` followed by
  `ConnectionPortNumber()`: the bound port on success. -/
  bindResult : Except GoError Nat
  /-- `getLanguageJSONFilePath` (runner.go lines 194-208): the parsed
  descriptor and the descriptor directory on success. -/
  loadResult : Except GoError (Runner × String)
  /-- Whether `version.CheckCompatibility(version.CurrentGaugeVersion,
  &r.GaugeVersionSupport)` returned nil. -/
  compatOk : Bool
  /-- `common.ExecuteCommandWithEnv(command, runnerDir, reporter, reporter,
  env)`: the started process on success. -/
  spawnResult : Except GoError GoProcess
  /-- `gaugeConnectionHandler.AcceptConnection(timeout, errChannel)`: a
  connection, or an error (covering both the timeout and a value arriving
  on the exit-error channel). -/
  acceptResult : Except GoError Unit
  /-- The outcome of the cleanup `killRunner` after a failed accept
  (runner.go line 278); its error is only logged, never returned. -/
  cleanupKillErr : Option GoError
deriving Repr, DecidableEq

/-- The error built at runner.go line 174 when the compatibility check
fails.  The only interpolated value is `version.CurrentGaugeVersion`; the
plugin name appears as the literal placeholder text, inside backticks. -/
def compatErrorMessage (currentGaugeVersion : String) : String :=
  "Compatible runner version to " ++ currentGaugeVersion ++
    " not found. To update plugin, run `gauge --update \x7bpluginName\x7d`."

/-- From `startRunner` (runner.go lines 166-192): loads the descriptor,
gates on compatibility, computes the OS command and clean environment, and
spawns the process, returning the `TestRunner` holding the spawned `Cmd`
(with `ProcessState` still nil) and the freshly made unbuffered error
channel.  Returns the event trace and the Go result. -/
def startRunner (goos currentGaugeVersion port : String) (osEnv : List String)
    (o : StartOracle) : List StartEvent × Except GoError TestRunner :=
  match o.loadResult with
  | .error e => ([.loadDescriptor], .error e)
  | .ok (r, runnerDir) =>
    if !o.compatOk then
      ([.loadDescriptor, .checkCompatibility],
        .error (compatErrorMessage currentGaugeVersion))
    else
      let command := getOsSpecificCommand goos r
      let env := getCleanEnv port osEnv
      match o.spawnResult with
      | .error e => ([.loadDescriptor, .checkCompatibility], .error e)
      | .ok proc =>
          ([.loadDescriptor, .checkCompatibility,
            .spawnProcess command runnerDir env],
           .ok { Cmd := some { Process := proc, ProcessState := none },
                 Connection := none,
                 ErrorChannelCap := startRunnerErrChannelCap })

/-- From `StartRunnerAndMakeConnection` (runner.go lines 260-285): resolves
the requested port (falling back to 0 on error), binds the listener, runs
`startRunner` with the bound port, then accepts the handshake connection;
on accept failure the spawned runner is killed (its kill error only logged)
and the accept error returned. -/
def StartRunnerAndMakeConnection (goos currentGaugeVersion : String)
    (osEnv : List String) (o : StartOracle) :
    List StartEvent × Except GoError TestRunner :=
  let _requestedPort : Nat :=
    match o.envPort with
    | .error _ => 0
    | .ok p => p
  match o.bindResult with
  | .error e => ([.bindListener], .error e)
  | .ok boundPort =>
    let started := startRunner goos currentGaugeVersion
      (toString boundPort) osEnv o
    match started with
    | (evts, .error e) => (.bindListener :: evts, .error e)
    | (evts, .ok tr) =>
      match o.acceptResult with
      | .ok c =>
          (.bindListener :: evts ++ [.acceptConnection],
           .ok { tr with Connection := some c })
      | .error connectionError =>
          (.bindListener :: evts ++ [.acceptConnection, .killRunnerProc],
           .error connectionError)

/-- Whether a start event is a process spawn. -/
def StartEvent.isSpawn : StartEvent → Bool
  | .spawnProcess _ _ _ => true
  | _ => false

/-- Whether `pat` occurs as a contiguous block somewhere in `l`. -/
def subOccurs (pat : List Char) : List Char → Bool
  | [] => pat.isEmpty
  | c :: rest => pat.isPrefixOf (c :: rest) || subOccurs pat rest

/-- Substring test used to state claims about error-message contents. -/
def strContainsSub (s pat : String) : Bool :=
  subOccurs pat.data s.data

/-- The entry a matching environment slot is overwritten with, and the entry
appended when the variable is absent (runner.go lines 226 and 230). -/
def portEnvEntry (port : String) : String :=
  GaugeInternalPortEnvName ++ "=" ++ port

/-- The predicate of the loop at runner.go line 224: does this entry bind
the well-known port variable. -/
def isPortVarEntry (k : String) : Bool :=
  envKey k == GaugeInternalPortEnvName

/-- The per-entry rewrite performed by the loop body at runner.go line 226. -/
def rewritePortEntry (port : String) (k : String) : String :=
  if isPortVarEntry k then portEnvEntry port else k

/-- A sample descriptor used to instantiate the theorems, matching the
scenario of spec §8: a ruby runner with `run.linux = ["ruby","run.rb"]`. -/
def rubyRunner : Runner :=
  { Id := "ruby"
    Name := "ruby"
    Version := "0.1.2"
    Description := "ruby runner"
    Run := { Windows := ["ruby.bat", "run.rb"]
             Linux := ["ruby", "run.rb"]
             Darwin := ["ruby", "run.rb"] }
    Init := { Windows := ["ruby.bat", "init.rb"]
              Linux := ["ruby", "init.rb"]
              Darwin := ["ruby", "init.rb"] }
    Lib := "lib"
    GaugeVersionSupport := { Minimum := "0.0.3", Maximum := "0.5.0" } }

/-- A sample inherited environment containing the port variable. -/
def sampleEnv : List String :=
  ["GAUGE_INTERNAL_PORT=9999", "PATH=/bin"]

/-- A sample oracle on which every external call of the start sequence
succeeds. -/
def sampleOkOracle : StartOracle :=
  { envPort := .ok 7777
    bindResult := .ok 7777
    loadResult := .ok (rubyRunner, "/plugins/ruby")
    compatOk := true
    spawnResult := .ok { Pid := 42 }
    acceptResult := .ok ()
    cleanupKillErr := none }

/-- A sample oracle whose compatibility check fails. -/
def failCompatOracle : StartOracle :=
  { sampleOkOracle with compatOk := false }

/-- A sample oracle whose handshake accept fails (timeout or exit error). -/
def acceptFailOracle : StartOracle :=
  { sampleOkOracle with acceptResult := .error "accept timed out" }

/-- A sample already-exited runner. -/
def exitedRunner : TestRunner :=
  { Cmd := some { Process := { Pid := 42 }, ProcessState := some { Exited := true } }
    Connection := some ()
    ErrorChannelCap := 0 }

/-- A sample still-running runner. -/
def liveRunner : TestRunner :=
  { Cmd := some { Process := { Pid := 42 }, ProcessState := none }
    Connection := some ()
    ErrorChannelCap := 0 }

/-! ## Theorems -/

/-- C3: a `Kill` call on a `TestRunner` whose process has already exited
(non-nil `ProcessState` reporting `Exited`) returns nil with an empty event
trace — in particular no stop-request message is sent — and a second call in
immediate succession behaves identically, whatever the race outcomes and OS
kill results would have been. -/
theorem Kill_idempotent_on_exited (t : TestRunner) (c : GoCmd) (ps : ProcState)
    (hc : t.Cmd = some c) (hps : c.ProcessState = some ps)
    (hex : ps.Exited = true)
    (r₁ r₂ : KillRace) (k₁ k₂ : Option GoError) :
    Kill (some t) r₁ k₁ = ([], none) ∧ Kill (some t) r₂ k₂ = ([], none) := by
  have hrun : isStillRunning (some t) = false := by
    simp [isStillRunning, hc, hps, hex]
  constructor <;> · unfold Kill; rw [hrun]; rfl

/-- Witness for C3 at a concrete already-exited runner. -/
theorem Kill_idempotent_on_exited_witness :
    Kill (some exitedRunner) .exitedWithinGrace none = ([], none) ∧
      Kill (some exitedRunner) .graceTimeout (some "kill failed") = ([], none) :=
  Kill_idempotent_on_exited exitedRunner
    { Process := { Pid := 42 }, ProcessState := some { Exited := true } }
    { Exited := true } rfl rfl rfl .exitedWithinGrace .graceTimeout
    none (some "kill failed")

/-- C4: on a still-running runner whose process outlives the grace period
(the timer wins the race), `Kill` sends the stop message, logs the forced
termination warning naming the process id, performs the OS-level kill
exactly once, closes the connection, and returns nil exactly when the OS
kill succeeded, otherwise the kill error. -/
theorem Kill_graceTimeout_forces_once (t : TestRunner) (c : GoCmd)
    (hc : t.Cmd = some c) (hrun : isStillRunning (some t) = true)
    (osErr : Option GoError) :
    Kill (some t) .graceTimeout osErr
      = ([.sendKillMessage, .warnForcedKill c.Process.Pid, .osKill,
          .closeConnection], osErr)
    ∧ (Kill (some t) .graceTimeout osErr).1.count .osKill = 1
    ∧ KillEvent.closeConnection ∈ (Kill (some t) .graceTimeout osErr).1
    ∧ (osErr = none → (Kill (some t) .graceTimeout osErr).2 = none)
    ∧ (∀ e, osErr = some e → (Kill (some t) .graceTimeout osErr).2 = some e) := by
  have hpid : killLoggedPid (some t) = c.Process.Pid := by
    simp [killLoggedPid, hc]
  have hk : Kill (some t) .graceTimeout osErr
      = ([.sendKillMessage, .warnForcedKill c.Process.Pid, .osKill,
          .closeConnection], osErr) := by
    unfold Kill
    rw [hrun, hpid]
    rfl
  refine ⟨hk, ?_, ?_, ?_, ?_⟩
  · rw [hk]; rfl
  · rw [hk]; simp
  · intro h; rw [hk, h]
  · intro e h; rw [hk, h]

/-- Witness for C4 at a concrete live runner whose OS kill succeeds. -/
theorem Kill_graceTimeout_forces_once_witness :
    Kill (some liveRunner) .graceTimeout none
      = ([.sendKillMessage, .warnForcedKill 42, .osKill, .closeConnection],
          none)
    ∧ (Kill (some liveRunner) .graceTimeout none).1.count .osKill = 1
    ∧ KillEvent.closeConnection ∈ (Kill (some liveRunner) .graceTimeout none).1
    ∧ (none = (none : Option GoError) →
        (Kill (some liveRunner) .graceTimeout none).2 = none)
    ∧ (∀ e, (none : Option GoError) = some e →
        (Kill (some liveRunner) .graceTimeout none).2 = some e) :=
  Kill_graceTimeout_forces_once liveRunner
    { Process := { Pid := 42 }, ProcessState := none } rfl (by decide) none

/-- C9: `Kill` is total on degenerate receivers — called on a nil
`*TestRunner`, or on one whose `Cmd` is nil, it returns nil with an empty
event trace (no message sent, no connection touched, no process
dereferenced), because `isStillRunning` reports false for these shapes. -/
theorem Kill_total_on_degenerate (r : KillRace) (k : Option GoError)
    (t : TestRunner) (hc : t.Cmd = none) :
    Kill none r k = ([], none) ∧ Kill (some t) r k = ([], none) := by
  constructor
  · unfold Kill
    rfl
  · have hrun : isStillRunning (some t) = false := by
      simp [isStillRunning, hc]
    unfold Kill
    rw [hrun]
    rfl

/-- Witness for C9 at a concrete `Cmd`-less runner. -/
theorem Kill_total_on_degenerate_witness :
    Kill none .graceTimeout (some "e") = ([], none) ∧
      Kill (some { Cmd := none, Connection := some (), ErrorChannelCap := 0 })
        .graceTimeout (some "e") = ([], none) :=
  Kill_total_on_degenerate .graceTimeout (some "e")
    { Cmd := none, Connection := some (), ErrorChannelCap := 0 } rfl

/-- Helper: when no entry binds the port variable, the rewrite pass of
`getCleanEnv` is the identity. -/
theorem map_rewrite_eq_self (port : String) (env : List String)
    (h : ∀ k ∈ env, isPortVarEntry k = false) :
    env.map (fun k =>
        if envKey k == GaugeInternalPortEnvName then
          GaugeInternalPortEnvName ++ "=" ++ port
        else k) = env := by
  induction env with
  | nil => rfl
  | cons a l ih =>
    have ha := h a (by simp)
    unfold isPortVarEntry at ha
    simp only [List.map_cons, ha, Bool.false_eq_true, if_false, List.cons.injEq,
      true_and]
    exact ih (fun k hk => h k (List.mem_cons_of_mem a hk))

/-- Helper: the entry seen at position `i` of the result of `getCleanEnv`,
for any position that exists in the input: it is the input entry passed
through the rewrite of runner.go line 226. -/
theorem getCleanEnv_getElem (port : String) (env : List String)
    (i : Fin env.length) :
    (getCleanEnv port env)[i.val]? = some (rewritePortEntry port (env.get i)) := by
  have hmap : (env.map (fun k =>
      if envKey k == GaugeInternalPortEnvName then
        GaugeInternalPortEnvName ++ "=" ++ port
      else k))[i.val]? = some (rewritePortEntry port (env.get i)) := by
    rw [List.getElem?_map]
    rw [List.getElem?_eq_getElem i.isLt]
    simp [rewritePortEntry, isPortVarEntry, portEnvEntry]
  unfold getCleanEnv
  by_cases h : env.any (fun k => envKey k == GaugeInternalPortEnvName) = true
  · simp only [h, if_true]
    exact hmap
  · simp only [h, Bool.false_eq_true, if_false]
    rw [List.getElem?_append, if_pos (by simp)]
    exact hmap

/-- C5: `getCleanEnv` copies the inherited environment, rewriting (not
appending) every existing entry for the well-known port variable; an entry
is appended exactly once only when the variable is absent.  In particular,
from an environment containing `GAUGE_INTERNAL_PORT=9999` and port `7777`,
the result has exactly one entry for that variable, with value `7777`. -/
theorem getCleanEnv_rewrites_not_appends (port : String) (env : List String) :
    (env.any isPortVarEntry = true →
        getCleanEnv port env = env.map (rewritePortEntry port)
        ∧ (getCleanEnv port env).length = env.length)
  ∧ (env.any isPortVarEntry = false →
        getCleanEnv port env = env ++ [portEnvEntry port])
  ∧ (getCleanEnv "7777" sampleEnv).countP (fun k => isPortVarEntry k) = 1
  ∧ getCleanEnv "7777" sampleEnv = ["GAUGE_INTERNAL_PORT=7777", "PATH=/bin"] := by
  refine ⟨?_, ?_, by decide, by decide⟩
  · intro h
    unfold isPortVarEntry at h
    constructor
    · simp only [getCleanEnv, h, if_true]
      simp [rewritePortEntry, isPortVarEntry, portEnvEntry]
    · simp only [getCleanEnv, h, if_true, List.length_map]
  · intro h
    unfold isPortVarEntry at h
    have habsent : ∀ k ∈ env, isPortVarEntry k = false := by
      intro k hk
      have := List.any_eq_false.mp h k hk
      unfold isPortVarEntry
      simpa using this
    simp only [getCleanEnv, h, if_false]
    rw [map_rewrite_eq_self port env habsent]
    rfl

/-- Witness for C5: the present case at a concrete environment. -/
theorem getCleanEnv_rewrites_not_appends_witness :
    getCleanEnv "7777" sampleEnv = sampleEnv.map (rewritePortEntry "7777")
    ∧ (getCleanEnv "7777" sampleEnv).length = sampleEnv.length :=
  (getCleanEnv_rewrites_not_appends "7777" sampleEnv).1 (by decide)

/-- An environment with two entries for the port variable, used to
instantiate C10. -/
def twoPortEnv : List String :=
  ["GAUGE_INTERNAL_PORT=1", "PATH=/bin", "GAUGE_INTERNAL_PORT=2"]

/-- C10: `getCleanEnv` leaves every entry whose key is not the port variable
unchanged in value and position, and when the variable is present it
rewrites every matching entry at its original position, producing a result
of unchanged length (no appended entry). -/
theorem getCleanEnv_frame (port : String) (env : List String) :
    (∀ i : Fin env.length, isPortVarEntry (env.get i) = false →
        (getCleanEnv port env)[i.val]? = some (env.get i))
  ∧ (env.any isPortVarEntry = true →
        (getCleanEnv port env).length = env.length
      ∧ ∀ i : Fin env.length, isPortVarEntry (env.get i) = true →
          (getCleanEnv port env)[i.val]? = some (portEnvEntry port)) := by
  constructor
  · intro i hi
    rw [getCleanEnv_getElem port env i]
    simp only [List.get_eq_getElem] at hi
    simp [rewritePortEntry, hi]
  · intro h
    constructor
    · unfold isPortVarEntry at h
      simp only [getCleanEnv, h, if_true, List.length_map]
    · intro i hi
      rw [getCleanEnv_getElem port env i]
      simp only [List.get_eq_getElem] at hi
      simp [rewritePortEntry, hi]

/-- Witness for C10 at an environment holding two port entries: the middle
entry is untouched, the length is preserved, and the second port entry is
rewritten in place. -/
theorem getCleanEnv_frame_witness :
    (getCleanEnv "7777" twoPortEnv)[1]? = some "PATH=/bin"
    ∧ (getCleanEnv "7777" twoPortEnv).length = twoPortEnv.length
    ∧ (getCleanEnv "7777" twoPortEnv)[2]? = some (portEnvEntry "7777") :=
  ⟨(getCleanEnv_frame "7777" twoPortEnv).1 ⟨1, by decide⟩ (by decide),
   ((getCleanEnv_frame "7777" twoPortEnv).2 (by decide)).1,
   ((getCleanEnv_frame "7777" twoPortEnv).2 (by decide)).2 ⟨2, by decide⟩
     (by decide)⟩

/-- Helper: the port entry always occurs in the environment built by
`getCleanEnv` — rewritten in when present, appended when absent. -/
theorem portEnvEntry_mem_getCleanEnv (port : String) (env : List String) :
    portEnvEntry port ∈ getCleanEnv port env := by
  unfold getCleanEnv portEnvEntry
  by_cases h : (env.any fun k => envKey k == GaugeInternalPortEnvName) = true
  · simp only [h, if_true]
    rw [List.any_eq_true] at h
    obtain ⟨k, hk, hmatch⟩ := h
    exact List.mem_map.mpr ⟨k, hk, by simp [hmatch]⟩
  · simp only [h, Bool.false_eq_true, if_false]
    simp

/-- Helper: a list is a Boolean prefix of itself extended on the right. -/
theorem isPrefixOf_append_self (l₁ l₂ : List Char) :
    l₁.isPrefixOf (l₁ ++ l₂) = true := by
  induction l₁ with
  | nil => simp [List.isPrefixOf]
  | cons a l ih => simp [List.isPrefixOf, ih]

/-- Helper: a pattern matching at the head occurs as a substring. -/
theorem subOccurs_of_isPrefixOf (pat l : List Char)
    (h : pat.isPrefixOf l = true) : subOccurs pat l = true := by
  cases l with
  | nil =>
    cases pat with
    | nil => rfl
    | cons a as => simp [List.isPrefixOf] at h
  | cons c rest => simp [subOccurs, h]

/-- Helper: substring occurrence survives extension on the left. -/
theorem subOccurs_append_right (pat l₁ l₂ : List Char)
    (h : subOccurs pat l₂ = true) : subOccurs pat (l₁ ++ l₂) = true := by
  induction l₁ with
  | nil => simpa using h
  | cons c l ih => simp [subOccurs, ih]

/-- Helper: a list occurs as a substring of itself extended on the right. -/
theorem subOccurs_append_left_self (pat l : List Char) :
    subOccurs pat (pat ++ l) = true :=
  subOccurs_of_isPrefixOf pat (pat ++ l) (isPrefixOf_append_self pat l)

/-- Helper: the shape of the compatibility error message, for any current
version string — it names the current gauge version and the update action,
and carries the literal placeholder text instead of a runner name. -/
theorem compat_message_parts (cur : String) :
    strContainsSub (compatErrorMessage cur) cur = true
    ∧ strContainsSub (compatErrorMessage cur) "gauge --update" = true
    ∧ strContainsSub (compatErrorMessage cur) "\x7bpluginName\x7d" = true := by
  have hdata : (compatErrorMessage cur).data
      = "Compatible runner version to ".data
        ++ (cur.data
            ++ " not found. To update plugin, run `gauge --update \x7bpluginName\x7d`.".data) := by
    simp [compatErrorMessage, String.data_append]
  unfold strContainsSub
  rw [hdata]
  refine ⟨?_, ?_, ?_⟩
  · exact subOccurs_append_right _ _ _ (subOccurs_append_left_self _ _)
  · exact subOccurs_append_right _ _ _
      (subOccurs_append_right _ _ _ (by decide))
  · exact subOccurs_append_right _ _ _
      (subOccurs_append_right _ _ _ (by decide))

/-- Characterization: `startRunner` when the descriptor load fails
(runner.go lines 168-171). -/
theorem startRunner_load_error (goos cur port : String) (osEnv : List String)
    (o : StartOracle) (e : GoError) (hl : o.loadResult = .error e) :
    startRunner goos cur port osEnv o = ([.loadDescriptor], .error e) := by
  simp [startRunner, hl]

/-- Characterization: `startRunner` when the compatibility check fails
(runner.go lines 172-175). -/
theorem startRunner_compat_error (goos cur port : String) (osEnv : List String)
    (o : StartOracle) (r : Runner) (dir : String)
    (hl : o.loadResult = .ok (r, dir)) (hcp : o.compatOk = false) :
    startRunner goos cur port osEnv o
      = ([.loadDescriptor, .checkCompatibility],
         .error (compatErrorMessage cur)) := by
  simp [startRunner, hl, hcp]

/-- Characterization: `startRunner` when the spawn fails
(runner.go lines 178-181). -/
theorem startRunner_spawn_error (goos cur port : String) (osEnv : List String)
    (o : StartOracle) (r : Runner) (dir : String) (e : GoError)
    (hl : o.loadResult = .ok (r, dir)) (hcp : o.compatOk = true)
    (hs : o.spawnResult = .error e) :
    startRunner goos cur port osEnv o
      = ([.loadDescriptor, .checkCompatibility], .error e) := by
  simp [startRunner, hl, hcp, hs]

/-- Characterization: `startRunner` on the success path
(runner.go lines 176-191). -/
theorem startRunner_ok (goos cur port : String) (osEnv : List String)
    (o : StartOracle) (r : Runner) (dir : String) (proc : GoProcess)
    (hl : o.loadResult = .ok (r, dir)) (hcp : o.compatOk = true)
    (hs : o.spawnResult = .ok proc) :
    startRunner goos cur port osEnv o
      = ([.loadDescriptor, .checkCompatibility,
          .spawnProcess (getOsSpecificCommand goos r) dir
            (getCleanEnv port osEnv)],
         .ok { Cmd := some { Process := proc, ProcessState := none },
               Connection := none,
               ErrorChannelCap := startRunnerErrChannelCap }) := by
  simp [startRunner, hl, hcp, hs]

/-- Characterization: `StartRunnerAndMakeConnection` when the listener bind
fails (runner.go lines 265-268). -/
theorem start_conn_bind_error (goos cur : String) (osEnv : List String)
    (o : StartOracle) (e : GoError) (hb : o.bindResult = .error e) :
    StartRunnerAndMakeConnection goos cur osEnv o
      = ([.bindListener], .error e) := by
  simp [StartRunnerAndMakeConnection, hb]

/-- Characterization: `StartRunnerAndMakeConnection` when `startRunner`
fails (runner.go lines 269-272). -/
theorem start_conn_startRunner_error (goos cur : String) (osEnv : List String)
    (o : StartOracle) (p : Nat) (evts : List StartEvent) (e : GoError)
    (hb : o.bindResult = .ok p)
    (hsr : startRunner goos cur (toString p) osEnv o = (evts, .error e)) :
    StartRunnerAndMakeConnection goos cur osEnv o
      = (.bindListener :: evts, .error e) := by
  simp [StartRunnerAndMakeConnection, hb, hsr]

/-- Characterization: `StartRunnerAndMakeConnection` on the full success
path (runner.go lines 274-284). -/
theorem start_conn_accept_ok (goos cur : String) (osEnv : List String)
    (o : StartOracle) (p : Nat) (r : Runner) (dir : String) (proc : GoProcess)
    (c : Unit)
    (hb : o.bindResult = .ok p) (hl : o.loadResult = .ok (r, dir))
    (hcp : o.compatOk = true) (hs : o.spawnResult = .ok proc)
    (ha : o.acceptResult = .ok c) :
    StartRunnerAndMakeConnection goos cur osEnv o
      = ([.bindListener, .loadDescriptor, .checkCompatibility,
          .spawnProcess (getOsSpecificCommand goos r) dir
            (getCleanEnv (toString p) osEnv),
          .acceptConnection],
         .ok { Cmd := some { Process := proc, ProcessState := none },
               Connection := some c,
               ErrorChannelCap := startRunnerErrChannelCap }) := by
  simp [StartRunnerAndMakeConnection, hb, ha,
    startRunner_ok goos cur (toString p) osEnv o r dir proc hl hcp hs]

/-- Characterization: `StartRunnerAndMakeConnection` when the handshake
accept fails after a successful spawn (runner.go lines 274-283). -/
theorem start_conn_accept_error (goos cur : String) (osEnv : List String)
    (o : StartOracle) (p : Nat) (r : Runner) (dir : String) (proc : GoProcess)
    (e : GoError)
    (hb : o.bindResult = .ok p) (hl : o.loadResult = .ok (r, dir))
    (hcp : o.compatOk = true) (hs : o.spawnResult = .ok proc)
    (ha : o.acceptResult = .error e) :
    StartRunnerAndMakeConnection goos cur osEnv o
      = ([.bindListener, .loadDescriptor, .checkCompatibility,
          .spawnProcess (getOsSpecificCommand goos r) dir
            (getCleanEnv (toString p) osEnv),
          .acceptConnection, .killRunnerProc],
         .error e) := by
  simp [StartRunnerAndMakeConnection, hb, ha,
    startRunner_ok goos cur (toString p) osEnv o r dir proc hl hcp hs]

/-- C1: when the process was spawned but the handshake accept returned an
error (timeout or exit-error, both surfacing as the accept error),
`StartRunnerAndMakeConnection` forcibly kills the spawned process — the
kill is the last action of the trace, before the error is returned — so a
start call returning an error never leaves a half-started runner process
running. -/
theorem start_error_kills_spawned (goos cur : String) (osEnv : List String)
    (o : StartOracle) (p : Nat) (r : Runner) (dir : String) (proc : GoProcess)
    (e : GoError)
    (hb : o.bindResult = .ok p) (hl : o.loadResult = .ok (r, dir))
    (hcp : o.compatOk = true) (hs : o.spawnResult = .ok proc)
    (ha : o.acceptResult = .error e) :
    (StartRunnerAndMakeConnection goos cur osEnv o).2 = .error e
    ∧ StartEvent.killRunnerProc ∈ (StartRunnerAndMakeConnection goos cur osEnv o).1
    ∧ (StartRunnerAndMakeConnection goos cur osEnv o).1.getLast?
        = some .killRunnerProc := by
  rw [start_conn_accept_error goos cur osEnv o p r dir proc e hb hl hcp hs ha]
  exact ⟨rfl, by simp, rfl⟩

/-- Witness for C1 at a concrete oracle whose accept times out. -/
theorem start_error_kills_spawned_witness :
    (StartRunnerAndMakeConnection "linux" "0.3.1" sampleEnv acceptFailOracle).2
      = .error "accept timed out"
    ∧ StartEvent.killRunnerProc
        ∈ (StartRunnerAndMakeConnection "linux" "0.3.1" sampleEnv acceptFailOracle).1
    ∧ (StartRunnerAndMakeConnection "linux" "0.3.1" sampleEnv acceptFailOracle).1.getLast?
        = some .killRunnerProc :=
  start_error_kills_spawned "linux" "0.3.1" sampleEnv acceptFailOracle
    7777 rubyRunner "/plugins/ruby" { Pid := 42 } "accept timed out"
    rfl rfl rfl rfl rfl

/-- C2 counterexample: the exit-error channel created by `startRunner` is
`make(chan error)` — an unbuffered channel of capacity 0, not 1 — observed
on the runner produced by a concrete successful start. -/
theorem startRunner_errChannel_cap_cex :
    (startRunner "linux" "0.3.1" "7777" sampleEnv sampleOkOracle).2.map
        TestRunner.ErrorChannelCap = .ok 0
    ∧ ¬ ((startRunner "linux" "0.3.1" "7777" sampleEnv sampleOkOracle).2.map
        TestRunner.ErrorChannelCap = .ok 1) := by
  constructor <;> decide

/-- C2 (amended): the exit-error channel created by `startRunner` is
unbuffered (capacity 0), and the exit watcher delivers at most one value to
it: exactly one value when the process exits with a non-nil error, and no
value otherwise. -/
theorem startRunner_errChannel_unbuffered (goos cur port : String)
    (osEnv : List String) (o : StartOracle) (tr : TestRunner)
    (h : (startRunner goos cur port osEnv o).2 = .ok tr) :
    tr.ErrorChannelCap = 0
    ∧ ∀ waitErr : Option GoError,
        (waitAndGetErrorMessageSends waitErr).length
          = if waitErr.isSome then 1 else 0 := by
  constructor
  · cases hl : o.loadResult with
    | error e =>
      rw [startRunner_load_error goos cur port osEnv o e hl] at h
      simp at h
    | ok rd =>
      obtain ⟨r, dir⟩ := rd
      cases hcp : o.compatOk with
      | false =>
        rw [startRunner_compat_error goos cur port osEnv o r dir hl hcp] at h
        simp at h
      | true =>
        cases hs : o.spawnResult with
        | error e =>
          rw [startRunner_spawn_error goos cur port osEnv o r dir e hl hcp hs] at h
          simp at h
        | ok proc =>
          rw [startRunner_ok goos cur port osEnv o r dir proc hl hcp hs] at h
          simp at h
          rw [← h]
          rfl
  · intro waitErr
    cases waitErr <;> rfl

/-- The runner produced by `startRunner` on the sample oracle. -/
def sampleStartedRunner : TestRunner :=
  { Cmd := some { Process := { Pid := 42 }, ProcessState := none }
    Connection := none
    ErrorChannelCap := 0 }

/-- Witness for the amended C2 at the sample oracle and a concrete non-nil
exit error. -/
theorem startRunner_errChannel_unbuffered_witness :
    sampleStartedRunner.ErrorChannelCap = 0
    ∧ (waitAndGetErrorMessageSends (some "exit status 1")).length
        = if (some "exit status 1" : Option GoError).isSome then 1 else 0 :=
  ⟨(startRunner_errChannel_unbuffered "linux" "0.3.1" "7777" sampleEnv
      sampleOkOracle sampleStartedRunner (by decide)).1,
   (startRunner_errChannel_unbuffered "linux" "0.3.1" "7777" sampleEnv
      sampleOkOracle sampleStartedRunner (by decide)).2 (some "exit status 1")⟩

/-- C6: no runner process is spawned until the listener bind, the
descriptor load, and the compatibility check have all succeeded, in that
order — a spawn event can only be the fourth step of the trace, right
after those three — and any listener, descriptor, or compatibility error is
returned synchronously with no spawn event in the trace. -/
theorem start_spawn_only_after_gates (goos cur : String) (osEnv : List String)
    (o : StartOracle) :
    (∀ ev ∈ (StartRunnerAndMakeConnection goos cur osEnv o).1,
        ev.isSpawn = true →
          (∃ p, o.bindResult = .ok p)
          ∧ (∃ rd, o.loadResult = .ok rd)
          ∧ o.compatOk = true
          ∧ (StartRunnerAndMakeConnection goos cur osEnv o).1.take 4
              = [.bindListener, .loadDescriptor, .checkCompatibility, ev])
  ∧ (∀ e, o.bindResult = .error e →
        StartRunnerAndMakeConnection goos cur osEnv o
          = ([.bindListener], .error e))
  ∧ (∀ e p, o.loadResult = .error e → o.bindResult = .ok p →
        (StartRunnerAndMakeConnection goos cur osEnv o).2 = .error e
        ∧ ∀ ev ∈ (StartRunnerAndMakeConnection goos cur osEnv o).1,
            ev.isSpawn = false)
  ∧ (∀ p r dir, o.compatOk = false → o.bindResult = .ok p →
        o.loadResult = .ok (r, dir) →
        (StartRunnerAndMakeConnection goos cur osEnv o).2
          = .error (compatErrorMessage cur)
        ∧ ∀ ev ∈ (StartRunnerAndMakeConnection goos cur osEnv o).1,
            ev.isSpawn = false) := by
  refine ⟨?_, ?_, ?_, ?_⟩
  · intro ev hev hsp
    cases hb : o.bindResult with
    | error e =>
      rw [start_conn_bind_error goos cur osEnv o e hb] at hev
      simp at hev
      rw [hev] at hsp
      simp [StartEvent.isSpawn] at hsp
    | ok p =>
      cases hl : o.loadResult with
      | error e =>
        rw [start_conn_startRunner_error goos cur osEnv o p [.loadDescriptor] e hb
          (startRunner_load_error goos cur (toString p) osEnv o e hl)] at hev
        simp at hev
        rcases hev with rfl | rfl <;> simp [StartEvent.isSpawn] at hsp
      | ok rd =>
        obtain ⟨r, dir⟩ := rd
        cases hcp : o.compatOk with
        | false =>
          rw [start_conn_startRunner_error goos cur osEnv o p
            [.loadDescriptor, .checkCompatibility] (compatErrorMessage cur) hb
            (startRunner_compat_error goos cur (toString p) osEnv o r dir hl hcp)]
            at hev
          simp at hev
          rcases hev with rfl | rfl | rfl <;> simp [StartEvent.isSpawn] at hsp
        | true =>
          cases hs : o.spawnResult with
          | error e =>
            rw [start_conn_startRunner_error goos cur osEnv o p
              [.loadDescriptor, .checkCompatibility] e hb
              (startRunner_spawn_error goos cur (toString p) osEnv o r dir e hl
                hcp hs)] at hev
            simp at hev
            rcases hev with rfl | rfl | rfl <;> simp [StartEvent.isSpawn] at hsp
          | ok proc =>
            refine ⟨⟨p, rfl⟩, ⟨(r, dir), rfl⟩, rfl, ?_⟩
            cases ha : o.acceptResult with
            | ok c =>
              rw [start_conn_accept_ok goos cur osEnv o p r dir proc c hb hl hcp
                hs ha] at hev ⊢
              simp at hev
              rcases hev with rfl | rfl | rfl | rfl | rfl <;>
                first
                  | rfl
                  | (simp [StartEvent.isSpawn] at hsp)
            | error e =>
              rw [start_conn_accept_error goos cur osEnv o p r dir proc e hb hl
                hcp hs ha] at hev ⊢
              simp at hev
              rcases hev with rfl | rfl | rfl | rfl | rfl | rfl <;>
                first
                  | rfl
                  | (simp [StartEvent.isSpawn] at hsp)
  · intro e hb
    exact start_conn_bind_error goos cur osEnv o e hb
  · intro e p hl hb
    rw [start_conn_startRunner_error goos cur osEnv o p [.loadDescriptor] e hb
      (startRunner_load_error goos cur (toString p) osEnv o e hl)]
    refine ⟨rfl, ?_⟩
    intro ev hev
    simp at hev
    rcases hev with rfl | rfl <;> rfl
  · intro p r dir hcp hb hl
    rw [start_conn_startRunner_error goos cur osEnv o p
      [.loadDescriptor, .checkCompatibility] (compatErrorMessage cur) hb
      (startRunner_compat_error goos cur (toString p) osEnv o r dir hl hcp)]
    refine ⟨rfl, ?_⟩
    intro ev hev
    simp at hev
    rcases hev with rfl | rfl | rfl <;> rfl

/-- Witness for C6: the all-success oracle has its spawn event in fourth
position, after the three gates. -/
theorem start_spawn_only_after_gates_witness :
    (∃ p, sampleOkOracle.bindResult = .ok p)
    ∧ (∃ rd, sampleOkOracle.loadResult = .ok rd)
    ∧ sampleOkOracle.compatOk = true
    ∧ (StartRunnerAndMakeConnection "linux" "0.3.1" sampleEnv sampleOkOracle).1.take 4
        = [.bindListener, .loadDescriptor, .checkCompatibility,
           .spawnProcess ["ruby", "run.rb"] "/plugins/ruby"
             ["GAUGE_INTERNAL_PORT=7777", "PATH=/bin"]] :=
  (start_spawn_only_after_gates "linux" "0.3.1" sampleEnv sampleOkOracle).1
    (.spawnProcess ["ruby", "run.rb"] "/plugins/ruby"
      ["GAUGE_INTERNAL_PORT=7777", "PATH=/bin"])
    (by decide) (by decide)

/-- C7 counterexample: for the ruby descriptor (runner name "ruby") failing
the compatibility check, the error message produced by `startRunner` does
not contain the runner name — only the literal placeholder text — so the
message does not reference the runner name as the claim states. -/
theorem compat_error_lacks_runner_name :
    failCompatOracle.loadResult = .ok (rubyRunner, "/plugins/ruby")
    ∧ rubyRunner.Name = "ruby"
    ∧ (startRunner "linux" "0.3.1" "7777" sampleEnv failCompatOracle).2
        = .error (compatErrorMessage "0.3.1")
    ∧ strContainsSub (compatErrorMessage "0.3.1") "ruby" = false := by
  refine ⟨by decide, by decide, by decide, by decide⟩

/-- C7 (amended): for every descriptor that fails the compatibility check,
`startRunner` returns an error whose user-facing message references the
current gauge version and an update action (`gauge --update`), with the
literal placeholder text standing in for the plugin name rather than the
runner's actual name. -/
theorem compat_failure_message (goos cur port : String) (osEnv : List String)
    (o : StartOracle) (r : Runner) (dir : String)
    (hl : o.loadResult = .ok (r, dir)) (hcp : o.compatOk = false) :
    (startRunner goos cur port osEnv o).2 = .error (compatErrorMessage cur)
    ∧ strContainsSub (compatErrorMessage cur) cur = true
    ∧ strContainsSub (compatErrorMessage cur) "gauge --update" = true
    ∧ strContainsSub (compatErrorMessage cur) "\x7bpluginName\x7d" = true := by
  refine ⟨?_, compat_message_parts cur⟩
  rw [startRunner_compat_error goos cur port osEnv o r dir hl hcp]

/-- Witness for the amended C7 at the concrete failing oracle. -/
theorem compat_failure_message_witness :
    (startRunner "linux" "0.3.1" "7777" sampleEnv failCompatOracle).2
      = .error (compatErrorMessage "0.3.1")
    ∧ strContainsSub (compatErrorMessage "0.3.1") "0.3.1" = true
    ∧ strContainsSub (compatErrorMessage "0.3.1") "gauge --update" = true
    ∧ strContainsSub (compatErrorMessage "0.3.1") "\x7bpluginName\x7d" = true :=
  compat_failure_message "linux" "0.3.1" "7777" sampleEnv failCompatOracle
    rubyRunner "/plugins/ruby" rfl rfl

/-- C8: the run and init command lists are selected by build OS — windows
and darwin pick their own lists, every other value of `runtime.GOOS` picks
the linux list — and on linux a descriptor is spawned with exactly its
`run.linux` command, working directory equal to the descriptor's directory,
and an environment containing the allocated port entry. -/
theorem os_specific_command_selection (goos : String) (r : Runner) :
    (goos = "windows" →
        getOsSpecificCommand goos r = r.Run.Windows
        ∧ executeInitHookCommand goos r = r.Init.Windows)
  ∧ (goos = "darwin" →
        getOsSpecificCommand goos r = r.Run.Darwin
        ∧ executeInitHookCommand goos r = r.Init.Darwin)
  ∧ (goos ≠ "windows" → goos ≠ "darwin" →
        getOsSpecificCommand goos r = r.Run.Linux
        ∧ executeInitHookCommand goos r = r.Init.Linux)
  ∧ (∀ (cur port dir : String) (osEnv : List String) (o : StartOracle)
        (proc : GoProcess),
        goos = "linux" → o.loadResult = .ok (r, dir) → o.compatOk = true →
        o.spawnResult = .ok proc →
        (startRunner goos cur port osEnv o).1
          = [.loadDescriptor, .checkCompatibility,
             .spawnProcess r.Run.Linux dir (getCleanEnv port osEnv)]
        ∧ portEnvEntry port ∈ getCleanEnv port osEnv) := by
  refine ⟨?_, ?_, ?_, ?_⟩
  · intro h
    subst h
    exact ⟨rfl, rfl⟩
  · intro h
    subst h
    exact ⟨rfl, rfl⟩
  · intro h₁ h₂
    have hw : (goos == "windows") = false := by simp [h₁]
    have hd : (goos == "darwin") = false := by simp [h₂]
    unfold getOsSpecificCommand executeInitHookCommand
    rw [hw, hd]
    exact ⟨rfl, rfl⟩
  · intro cur port dir osEnv o proc hg hl hcp hs
    subst hg
    rw [startRunner_ok "linux" cur port osEnv o r dir proc hl hcp hs]
    have hcmd : getOsSpecificCommand "linux" r = r.Run.Linux := rfl
    rw [hcmd]
    exact ⟨rfl, portEnvEntry_mem_getCleanEnv port osEnv⟩

/-- Witness for C8: the ruby descriptor on linux is spawned with exactly
`["ruby","run.rb"]`, the descriptor directory, and an environment holding
the allocated port. -/
theorem os_specific_command_selection_witness :
    (startRunner "linux" "0.3.1" "7777" sampleEnv sampleOkOracle).1
      = [.loadDescriptor, .checkCompatibility,
         .spawnProcess ["ruby", "run.rb"] "/plugins/ruby"
           (getCleanEnv "7777" sampleEnv)]
    ∧ portEnvEntry "7777" ∈ getCleanEnv "7777" sampleEnv :=
  (os_specific_command_selection "linux" rubyRunner).2.2.2 "0.3.1" "7777"
    "/plugins/ruby" sampleEnv sampleOkOracle { Pid := 42 } rfl rfl rfl rfl

end Gauge
